import Mathlib

/-
Verification of the quantity-resolution and caching engine of helita
(helita/sim/ebysus.py and helita/sim/document_vars.py), via a shallow
embedding in Lean 4.

Conventions of the embedding:
* Python dicts holding homogeneous data are association lists, looked up
  with alookup (first matching key wins, as dict lookup yields the unique
  binding; insertion overwrites in place).
* Fallible Python code is embedded in the Except monad; the relevant
  Python exception classes are the constructors of PyError.
* Code of the repository that is not part of the given sources
  (bifrost.py, file_memory.py, fluid_tools.py, load_*.py) is modelled from
  the spec; each such definition carries a doc comment starting with
  Modelled from the spec.
-/

/-- Python exception kinds that the embedded code can raise. -/
inductive PyError : Type
  | valueError
  | nameError
  | keyError
  | attributeError
  | unknownVariable
deriving DecidableEq, Repr

/-- Association-list lookup, embedding Python dict lookup `d[k]` /
`d.get(k)`: returns the binding of the key, if any. -/
def alookup {κ β : Type} [DecidableEq κ] : List (κ × β) → κ → Option β
  | [], _ => none
  | (k', v) :: rest, k => if k' = k then some v else alookup rest k

/-- Association-list insert-or-overwrite, embedding Python `d[k] = v`. -/
def dictInsert {κ β : Type} [DecidableEq κ] (l : List (κ × β)) (k : κ) (v : β) :
    List (κ × β) :=
  if (alookup l k).isSome then
    l.map (fun p => if p.1 = k then (k, v) else p)
  else
    l ++ [(k, v)]

/-- Association-list in-place value update, embedding Python mutation of
an existing entry `d[k].field = ...`. Missing keys are left untouched. -/
def dictModify {κ β : Type} [DecidableEq κ] (l : List (κ × β)) (k : κ) (f : β → β) :
    List (κ × β) :=
  l.map (fun p => if p.1 = k then (p.1, f p.2) else p)

/- ===================== document_vars.py ===================== -/

/-- document_vars.NONEDOC: default documentation when none is provided. -/
def NONEDOC : String := "(not yet documented)"

/-- One TYPE_QUANT sub-dictionary of the vardict: its QUANTDOC entry plus
the per-variable documentation entries. -/
structure TypeQuantDict where
  quantdoc : String
  entries : List (String × String)
deriving DecidableEq, Repr

/-- One META_QUANT sub-dictionary of the vardict: its QUANTDOC entry plus
the TYPE_QUANT sub-dictionaries. -/
structure MetaQuantDict where
  quantdoc : String
  typequants : List (String × TypeQuantDict)
deriving DecidableEq, Repr

/-- The documentation state of document_vars.py: the module-global
METAQUANT variable together with obj.vardict. -/
structure DocState where
  metaquant : Option String
  vardict : List (String × MetaQuantDict)
deriving DecidableEq, Repr

/-- document_vars.set_meta_quant: sets METAQUANT to the given name and
resets vardict at that name to a fresh dict holding only QUANT_DOC. -/
def set_meta_quant (st : DocState) (name : String) (QUANT_DOC : String) : DocState :=
  { metaquant := some name,
    vardict := dictInsert st.vardict name { quantdoc := QUANT_DOC, typequants := [] } }

/-- The document_var closure returned by vars_documenter in its writing
branch: puts documentation about varname into obj.vardict at the captured
METAQUANT m and TYPE_QUANT, ignoring names outside QUANT_VARS when
QUANT_VARS is given. -/
def document_var_write (m TYPE_QUANT : String) (QUANT_VARS : Option (List String))
    (st : DocState) (varname vardoc : String) : DocState :=
  let put : DocState :=
    { st with vardict := dictModify st.vardict m (fun md =>
        { md with typequants := dictModify md.typequants TYPE_QUANT (fun td =>
            { td with entries := dictInsert td.entries varname vardoc }) }) }
  match QUANT_VARS with
  | some qv => if varname ∈ qv then put else st
  | none => put

/-- The dont_document_var closure returned by vars_documenter when
TYPE_QUANT already exists and rewrite is False: does nothing. -/
def dont_document_var : DocState → String → String → DocState :=
  fun st _ _ => st

/-- document_vars.vars_documenter: function factory returning a function
which writes documentation of a var into obj.vardict at METAQUANT and
TYPE_QUANT. Raises ValueError if METAQUANT has not been set; if
TYPE_QUANT is already present and rewrite is False, does nothing and
returns a function which does nothing. The result pairs the updated
documentation state with the returned closure (closures act on the state
since the Python code mutates obj.vardict in place). -/
def vars_documenter (st : DocState) (TYPE_QUANT : String)
    (QUANT_VARS : Option (List String)) (QUANT_DOC : String) (rewrite : Bool) :
    Except PyError (DocState × (DocState → String → String → DocState)) :=
  match st.metaquant with
  | none => .error .valueError
  | some m =>
    match alookup st.vardict m with
    | none => .error .keyError
    | some md =>
      let present := (alookup md.typequants TYPE_QUANT).isSome
      let fresh : TypeQuantDict := { quantdoc := QUANT_DOC, entries := [] }
      let st1 := if present then st else
        { st with vardict := dictModify st.vardict m (fun md' =>
            { md' with typequants := dictInsert md'.typequants TYPE_QUANT fresh }) }
      let write := rewrite || !present
      if write then
        let docfun := document_var_write m TYPE_QUANT QUANT_VARS
        let st2 := match QUANT_VARS with
          | some qv => qv.foldl (fun s v => docfun s v NONEDOC) st1
          | none => st1
        .ok (st2, docfun)
      else
        .ok (st, dont_document_var)

/- ===================== Context data model (ebysus.py) ===================== -/

/-- A fluid selector: the (species, level) integer pair (mf_ispecies,
mf_ilevel) or (mf_jspecies, mf_jlevel). -/
structure Fluid where
  species : Int
  level : Int
deriving DecidableEq, Repr

/-- The value of self.snap: either a single scalar snapshot number, or an
array of snapshot numbers together with the active index self.snapInd. -/
inductive SnapVal : Type
  | scalar (n : Int)
  | array (snaps : List Int) (snapInd : Nat)
deriving DecidableEq, Repr

/-- Whether np.shape(self.snap) == (), i.e. snap is a single scalar. -/
def SnapVal.isScalar : SnapVal → Bool
  | .scalar _ => true
  | .array _ _ => false

/-- The current single snap: self.snap itself when scalar, else
self.snap[self.snapInd]. -/
def SnapVal.current : SnapVal → Int
  | .scalar n => n
  | .array snaps snapInd => snaps.getD snapInd 0

/-- The array of snaps, when self.snap is an array. -/
def SnapVal.arrayPart : SnapVal → Option (List Int)
  | .scalar _ => none
  | .array snaps _ => some snaps

/-- One axis slice (self.iix / self.iiy / self.iiz): either the identity
slice, a half-open range, or an explicit index list. -/
inductive SliceSpec : Type
  | all
  | range (lo hi : Int)
  | indices (l : List Int)
deriving DecidableEq, Repr

/-- The metadata dict returned by EbysusData._metadata: the attrs
ifluid, jfluid, snap, iix, iiy, iiz, match_type, panic of self, plus the
snaps entry added when self.snap is an array. A fluid field holding none
embeds a metadata dict in which that key is absent (with_nfluid below 2)
or bound to Python None. The self.panic flag is the panicFlag field. -/
structure Metadata where
  ifluid : Option Fluid
  jfluid : Option Fluid
  snap : Int
  snaps : Option (List Int)
  iix : SliceSpec
  iiy : SliceSpec
  iiz : SliceSpec
  match_type : Int
  panicFlag : Bool
deriving DecidableEq, Repr

/-- Modelled from the spec: fluid_tools.fluid_equals (fluid_tools.py is
not among the given sources). Per the spec, two fluid selectors are equal
if species and level match. -/
def fluid_equals (a b : Fluid) : Bool :=
  decide (a.species = b.species ∧ a.level = b.level)

/-- Modelled from the spec: file_memory dot _dict_equals (file_memory.py
is not among the given sources) applied with ignore_keys ifluid and
jfluid, as _metadata_matches does. Per the docstring of
_metadata_matches, all other keys in each dict are the same and have the
same value; on the Metadata record those keys are exactly the non-fluid
fields. -/
def dict_equals_ignoring_fluids (a b : Metadata) : Bool :=
  decide (a.snap = b.snap ∧ a.snaps = b.snaps ∧ a.iix = b.iix ∧ a.iiy = b.iiy ∧
          a.iiz = b.iiz ∧ a.match_type = b.match_type ∧ a.panicFlag = b.panicFlag)

/-- EbysusData._metadata_matches: alt matches the live metadata if every
fluid present in alt equals the corresponding live fluid under
fluid_equals, and all other keys in each dict are the same and have the
same value. (The live metadata always carries both fluids, since
_metadata is called with its default with_nfluid of 2.) -/
def metadata_matches (alt live : Metadata) : Bool :=
  (match alt.ifluid with
   | none => true
   | some SL =>
     match live.ifluid with
     | some SL2 => fluid_equals SL SL2
     | none => false) &&
  (match alt.jfluid with
   | none => true
   | some SL =>
     match live.jfluid with
     | some SL2 => fluid_equals SL SL2
     | none => false) &&
  dict_equals_ignoring_fluids alt live

/-- The check _metadata_matches(self.variables.get('metadata', dict())):
when the metadata key is absent the empty dict is compared, which has
none of the non-fluid keys, so _dict_equals fails and the result is
False. -/
def metadata_matches_opt (stored : Option Metadata) (live : Metadata) : Bool :=
  match stored with
  | none => false
  | some md => metadata_matches md live

/-- _metadata(with_nfluid = n): with_nfluid 2 keeps ifluid and jfluid,
1 keeps just ifluid, 0 keeps no fluids. -/
def metadata_with_nfluid (md : Metadata) (n : Nat) : Metadata :=
  { md with ifluid := if n < 1 then none else md.ifluid,
            jfluid := if n < 2 then none else md.jfluid }

/- ===================== EbysusData state ===================== -/

/-- The state of an EbysusData object relevant to quantity resolution:
the Context fields (fluids, snap, slices, match_type, panic), the memmap
pool policy flag and pool (the file_memory MM_PERSNAP and MEMORY_MEMMAP
attributes; entries are kept abstract as their keys), the self.variables
store (its 'metadata' key, whose value is a dict rather than an array, is
the separate field variables_metadata), the result cache entries of
file_memory.Cache, the do_caching flag, the document_vars
_creating_vardict flag, the precomputed axis coordinate arrays self.x,
self.y, self.z, and a flag recording that help(self.get_var) was shown.
Values of variables are the type parameter. -/
structure DD (α : Type) where
  ifluid : Fluid
  jfluid : Fluid
  snap : SnapVal
  iix : SliceSpec
  iiy : SliceSpec
  iiz : SliceSpec
  match_type : Int
  panicFlag : Bool
  mm_persnap : Bool
  memory_memmap : Option (List String)
  variables_entries : List (String × α)
  variables_metadata : Option Metadata
  cache_entries : List ((String × Metadata) × α)
  do_caching : Bool
  creating_vardict : Bool
  axis_x : α
  axis_y : α
  axis_z : α
  helpCalled : Bool
deriving DecidableEq, Repr

/-- EbysusData._metadata() of the live object: every metadata attr is
set, both fluids are included (default with_nfluid of 2), and when
self.snap is an array the snaps entry holds it while snap holds the
single selected snap. -/
def DD.metadata {α : Type} (dd : DD α) : Metadata :=
  { ifluid := some dd.ifluid, jfluid := some dd.jfluid,
    snap := dd.snap.current, snaps := dd.snap.arrayPart,
    iix := dd.iix, iiy := dd.iiy, iiz := dd.iiz,
    match_type := dd.match_type, panicFlag := dd.panicFlag }

/-- The four producer stages consulted by _load_quantity, in source
order: load_fromfile_quantities (which also receives the panic flag),
load_quantities, load_mf_quantities, load_arithmetic_quantities. The
load_*.py collaborator modules are outside the core (external
collaborators per the spec), so the stages are parameters: each is a pure
function of the object state and the name, returning an array or absence. -/
structure Stages (α : Type) where
  load_fromfile : DD α → String → Bool → Option α
  load_quantities : DD α → String → Option α
  load_mf : DD α → String → Option α
  load_arith : DD α → String → Option α

/-- The producer-stage chain of EbysusData._load_quantity (the part after
the self.variables check): val = load_fromfile_quantities(...); each
following loader runs only if val is None; the final val is returned. -/
def _load_quantity_stage_chain {α : Type} (dd : DD α) (stages : Stages α)
    (var : String) (panicFlag : Bool) : Option α :=
  let val := stages.load_fromfile dd var panicFlag
  let val := if val.isNone then stages.load_quantities dd var else val
  let val := if val.isNone then stages.load_mf dd var else val
  let val := if val.isNone then stages.load_arith dd var else val
  val

/-- EbysusData._load_quantity (body, inside its decorators): if var is in
self.variables and the stored metadata matches the live metadata, return
the stored value; otherwise run the producer-stage chain. -/
def _load_quantity {α : Type} (dd : DD α) (stages : Stages α)
    (var : String) (panicFlag : Bool) : Option α :=
  if (alookup dd.variables_entries var).isSome
      && metadata_matches_opt dd.variables_metadata dd.metadata then
    alookup dd.variables_entries var
  else
    _load_quantity_stage_chain dd stages var panicFlag

/- ===================== get_var machinery (ebysus.py) ===================== -/

/-- Modelled from the spec: fluid_tools.set_fluids (fluid_tools.py is not
among the given sources). It sets the fluid-related attributes of self
from the fluid kwargs of the call; fluids not named by the call keep
their current values. -/
def set_fluids {α : Type} (dd : DD α) (i j : Option Fluid) : DD α :=
  { dd with ifluid := i.getD dd.ifluid, jfluid := j.getD dd.jfluid }

/-- Modelled from the spec: BifrostData.set_domain_iiaxes (bifrost.py is
not among the given sources). It applies the requested slice for each
axis; axes without a requested slice keep their current values. -/
def set_domain_iiaxes {α : Type} (dd : DD α) (ix iy iz : Option SliceSpec) : DD α :=
  { dd with iix := ix.getD dd.iix, iiy := iy.getD dd.iiy, iiz := iz.getD dd.iiz }

/-- The memmap-pool invalidation prefix of EbysusData.set_snap: if the
MM_PERSNAP attribute is truthy and np.shape(self.snap) == (), delete the
MEMORY_MEMMAP attribute when it is present (dropping every remembered
memmap). -/
def set_snap_invalidate {α : Type} (dd : DD α) : DD α :=
  if dd.mm_persnap && dd.snap.isScalar then
    { dd with memory_memmap := none }
  else
    dd

/-- Modelled from the spec: BifrostData.set_snap (bifrost.py is not among
the given sources). It loads the requested snapshot, changing the
snap-related state. -/
def bifrost_set_snap {α : Type} (dd : DD α) (s : SnapVal) : DD α :=
  { dd with snap := s }

/-- EbysusData.set_snap: run the memmap-pool invalidation prefix, then
call set_snap of BifrostData. -/
def set_snap {α : Type} (dd : DD α) (s : SnapVal) : DD α :=
  bifrost_set_snap (set_snap_invalidate dd) s

/-- The default value of the mm_persnap keyword of EbysusData's
constructor. -/
def mm_persnap_default : Bool := true

/-- The cache key used by the with_caching decorator: the variable name
together with the metadata restricted to cache_with_nfluid fluid slots
(both fluids when cache_with_nfluid is not given). -/
def cache_key {α : Type} (dd : DD α) (var : String) (cwn : Option Nat) :
    String × Metadata :=
  (var, metadata_with_nfluid dd.metadata (cwn.getD 2))

/-- Cache insertion of a successful result; absent results are not
cached. The entry is placed most-recently-used first. -/
def cache_put {α : Type} (dd : DD α) (key : String × Metadata) (val : Option α) :
    DD α :=
  match val with
  | none => dd
  | some v =>
    { dd with cache_entries :=
        (key, v) :: dd.cache_entries.filter (fun e => decide (e.1 ≠ key)) }

/-- Modelled from the spec: the file_memory.with_caching decorator around
_load_quantity (file_memory.py is not among the given sources). Per the
spec, each resolution call independently controls whether to check the
cache at all and whether to write into the cache on success and with how
many fluid slots; a hit returns the cached value, a miss runs the
decorated call and optionally writes the result back. (The LRU promotion
and the byte- and count-budget eviction of the missing module are not
needed by the theorems below and are not modelled.) The decorators
maintain_fluids and maintain_attrs restore self.ifluid, self.jfluid and
self.match_type afterwards; the stages here are pure functions of the
state, so there is no mutation for them to undo. -/
def load_quantity_cached {α : Type} (dd : DD α) (stages : Stages α) (var : String)
    (panicFlag check_cache cacheFlag : Bool) (cwn : Option Nat) :
    Option α × DD α :=
  let key := cache_key dd var cwn
  let cached := if dd.do_caching && check_cache then alookup dd.cache_entries key
                else none
  match cached with
  | some v => (some v, dd)
  | none =>
    let val := _load_quantity dd stages var panicFlag
    let dd := if dd.do_caching && (cacheFlag || cwn.isSome) then cache_put dd key val
              else dd
    (val, dd)

/-- Modelled from the spec: BifrostData dot _get_var_postprocess
(bifrost.py is not among the given sources). Per the spec, when every
stage returns absent the resolution fails with UnknownVariable; otherwise
the value is returned. (The slice re-application of the missing code does
not affect the success/failure shape and is not modelled.) -/
def get_var_postprocess {α : Type} (val : Option α) : Except PyError α :=
  match val with
  | none => .error .unknownVariable
  | some v => .ok v

/-- ebysus.AXES. -/
def AXES : List String := ["x", "y", "z"]

/-- getattr(self, var) for var in AXES: the precomputed coordinate
arrays. -/
def axis_attr {α : Type} (dd : DD α) (var : String) : α :=
  if var = "x" then dd.axis_x else if var = "y" then dd.axis_y else dd.axis_z

/-- The keyword arguments of EbysusData.get_var, with their default
values. panicArg embeds the panic kwarg, matchTypeArg the match_type
kwarg and cacheArg the cache kwarg. -/
structure GetVarArgs where
  snap : Option SnapVal := none
  iix : Option SliceSpec := none
  iiy : Option SliceSpec := none
  iiz : Option SliceSpec := none
  ifluid : Option Fluid := none
  jfluid : Option Fluid := none
  panicArg : Bool := false
  matchTypeArg : Option Int := none
  check_cache : Bool := true
  cacheArg : Bool := false
  cache_with_nfluid : Option Nat := none

/-- The state updates of EbysusData.get_var performed between the AXES
check and the _load_quantity call, in source order: set self.match_type
when the match_type kwarg is given, set fluids from the fluid kwargs, run
self.set_snap when a different snap is requested, set self.panic, and set
the domain slices. -/
def get_var_setup {α : Type} (dd : DD α) (a : GetVarArgs) : DD α :=
  let dd := match a.matchTypeArg with
            | some m => { dd with match_type := m }
            | none => dd
  let dd := set_fluids dd a.ifluid a.jfluid
  let dd := match a.snap with
            | some s => if s = dd.snap then dd else set_snap dd s
            | none => dd
  let dd := { dd with panicFlag := a.panicArg }
  set_domain_iiaxes dd a.iix a.iiy a.iiz

/-- EbysusData.get_var: if var is the empty string and the object is not
creating its vardict, show help (the source then FALLS THROUGH: there is
no return statement); if var is an axis name, return the precomputed
coordinate attribute; otherwise apply the context kwargs
and run the decorated _load_quantity, then postprocess. -/
def get_var {α : Type} (dd : DD α) (stages : Stages α) (var : String)
    (a : GetVarArgs) : Except PyError α × DD α :=
  let dd := if var = "" && !dd.creating_vardict then { dd with helpCalled := true }
            else dd
  if var ∈ AXES then (.ok (axis_attr dd var), dd)
  else
    let dd := get_var_setup dd a
    let out := load_quantity_cached dd stages var a.panicArg a.check_cache a.cacheArg
                 a.cache_with_nfluid
    (get_var_postprocess out.1, out.2)

/- ============== _get_simple_var_file_info (ebysus.py) ============== -/

/-- str(n).zfill(2): the integer as a string of at least two characters,
left-padded with a zero. -/
def zfill2 (n : Int) : String :=
  let s := toString n
  if s.length ≥ 2 then s else "0" ++ s

/-- Python list.index: the index of the first occurrence, raising
ValueError when the element is absent. -/
def pyIndex (l : List String) (x : String) : Except PyError Nat :=
  match l with
  | [] => .error .valueError
  | y :: ys => if y = x then .ok 0 else (pyIndex ys x).map (· + 1)

/-- The state of an EbysusData object consulted by
_get_simple_var_file_info: the snapshot-file layout discovered by
_set_snapvars (the variable classification lists), the file-name pieces
set by _init_vars, the fluid selectors, the atom table (mf_nspecies and
the per-species level count att of ispecies dot params dot nlevel, with
mf_total_nlevel their total), the grid sizes and the element size of the
data dtype. io_exists embeds os.path.exists of file_root plus dot io,
which selects between the ebysus-like and bifrost-like layouts; in
_init_vars the attributes mfr_file and mfp_file are set only when a dot
io folder exists and mf_file only when it does not, so the branches using
the unset ones raise AttributeError. snap_str_cur is the snap_str entry
selected for the current snap. -/
structure FileEnv where
  root_name : String
  file_root : String
  io_exists : Bool
  mhdvars : List String
  snapvars : List String
  snaprvars : List String
  snappvars : List String
  snapevars : List String
  auxvars : List String
  varsmf : List String
  varsmfr : List String
  varsmfp : List String
  varsmfe : List String
  varsmfc : List String
  varsmm : List String
  mf_ispecies : Int
  mf_ilevel : Int
  mf_jspecies : Int
  mf_jlevel : Int
  mf_nspecies : Nat
  nlevel : Nat → Nat
  mf_total_nlevel : Nat
  nx : Nat
  ny : Nat
  nzb : Nat
  dsize : Nat
  snap : SnapVal
  snap_str_cur : String

/-- The jdx loop of _get_simple_var_file_info for a two-fluid packed
variable: for ispecies in 1..mf_nspecies and ilevel in
1..nlevel(ispecies), count the fluids with iSL before jSL, i.e. with
(iS before jS) OR ((iS equal to jS) AND (iL before jL)). -/
def jdx_count (mf_nspecies : Nat) (nlevel : Nat → Nat) (jS jL : Int) : Nat :=
  (List.range mf_nspecies).foldl (fun (jdx : Nat) (s0 : Nat) =>
    (List.range (nlevel (s0 + 1))).foldl (fun (jdx : Nat) (l0 : Nat) =>
      let iS : Int := (s0 : Int) + 1
      let iL : Int := (l0 : Int) + 1
      if iS < jS then jdx + 1
      else if iS = jS ∧ iL < jL then jdx + 1
      else jdx) jdx) 0

/-- The classification result for a simple variable: its ordinal idx in
its file group, the file path prefix (before the snap-string and
suffixes), whether a snap file (rather than an aux file) is being read,
and for two-fluid packed variables the mf_arr_size and jdx offsets. -/
structure SimpleVarClass where
  idx : Nat
  filenameBase : String
  snap_not_aux : Bool
  mf_arr_size : Nat
  jdx : Nat
deriving DecidableEq, Repr

/-- The classification cascade of _get_simple_var_file_info when a dot io
folder exists (the ebysus-like layout), in source order. The iS and iL
placeholders of the file-name templates are already formatted in. -/
def classify_io (env : FileEnv) (var : String) : Except PyError SimpleVarClass :=
  let iS := zfill2 env.mf_ispecies
  let iL := zfill2 env.mf_ilevel
  let mf_dir := "mf_" ++ iS ++ "_" ++ iL
  if (var ∈ env.mhdvars ∧ 0 < env.mf_ispecies) ∨ var ∈ ["bx", "by", "bz"] then
    (pyIndex env.mhdvars var).map (fun idx =>
      { idx, filenameBase := "mf_common/" ++ env.root_name ++ "_mf_common",
        snap_not_aux := true, mf_arr_size := 1, jdx := 0 })
  else if var ∈ env.snaprvars ∧ 0 < env.mf_ispecies then
    (pyIndex env.snaprvars var).map (fun idx =>
      { idx,
        filenameBase := mf_dir ++ "/mfr/" ++ env.root_name ++ "_mfr_" ++ iS ++ "_" ++ iL,
        snap_not_aux := true, mf_arr_size := 1, jdx := 0 })
  else if var ∈ env.snappvars ∧ 0 < env.mf_ispecies then
    (pyIndex env.snappvars var).map (fun idx =>
      { idx,
        filenameBase := mf_dir ++ "/mfp/" ++ env.root_name ++ "_mfp_" ++ iS ++ "_" ++ iL,
        snap_not_aux := true, mf_arr_size := 1, jdx := 0 })
  else if var ∈ env.snapevars ∧ 0 < env.mf_ispecies then
    (pyIndex env.snapevars var).map (fun idx =>
      { idx,
        filenameBase := mf_dir ++ "/mfe/" ++ env.root_name ++ "_mfe_" ++ iS ++ "_" ++ iL,
        snap_not_aux := true, mf_arr_size := 1, jdx := 0 })
  else if var ∈ env.snapevars ∧ env.mf_ispecies < 0 then
    (pyIndex env.snapevars var).map (fun idx =>
      { idx, filenameBase := "mf_e/" ++ env.root_name ++ "_mf_e",
        snap_not_aux := true, mf_arr_size := 1, jdx := 0 })
  else if var ∈ env.auxvars then
    (pyIndex env.auxvars var).map (fun idx =>
      { idx, filenameBase := "mf_common/" ++ env.root_name,
        snap_not_aux := false, mf_arr_size := 1, jdx := 0 })
  else if var ∈ env.varsmf then
    -- self.mf_file is only set by _init_vars when no dot io folder exists
    .error .attributeError
  else if var ∈ env.varsmfr then
    (pyIndex env.varsmfr var).map (fun idx =>
      { idx,
        filenameBase := mf_dir ++ "/mfr/" ++ env.root_name ++ "_mfr_" ++ iS ++ "_" ++ iL,
        snap_not_aux := false, mf_arr_size := 1, jdx := 0 })
  else if var ∈ env.varsmfp then
    (pyIndex env.varsmfp var).map (fun idx =>
      { idx,
        filenameBase := mf_dir ++ "/mfp/" ++ env.root_name ++ "_mfp_" ++ iS ++ "_" ++ iL,
        snap_not_aux := false, mf_arr_size := 1, jdx := 0 })
  else if var ∈ env.varsmfe then
    (pyIndex env.varsmfe var).map (fun idx =>
      { idx,
        filenameBase := mf_dir ++ "/mfe/" ++ env.root_name ++ "_mfe_" ++ iS ++ "_" ++ iL,
        snap_not_aux := false, mf_arr_size := 1, jdx := 0 })
  else if var ∈ env.varsmfc then
    (pyIndex env.varsmfc var).map (fun idx =>
      { idx,
        filenameBase := mf_dir ++ "/mfc/" ++ env.root_name ++ "_mfc_" ++ iS ++ "_" ++ iL,
        snap_not_aux := false, mf_arr_size := 1, jdx := 0 })
  else if var ∈ env.varsmm then
    (pyIndex env.varsmm var).map (fun idx =>
      { idx,
        filenameBase := mf_dir ++ "/mm/" ++ env.root_name ++ "_mm_" ++ iS ++ "_" ++ iL,
        snap_not_aux := false, mf_arr_size := env.mf_total_nlevel,
        jdx := jdx_count env.mf_nspecies env.nlevel env.mf_jspecies env.mf_jlevel })
  else
    .error .valueError

/-- The classification cascade of _get_simple_var_file_info when no dot
io folder exists (the bifrost-like layout), in source order. -/
def classify_nonio (env : FileEnv) (var : String) : Except PyError SimpleVarClass :=
  let iS := zfill2 env.mf_ispecies
  let iL := zfill2 env.mf_ilevel
  if (var ∈ env.mhdvars ∧ 0 < env.mf_ispecies) ∨ var ∈ ["bx", "by", "bz"] then
    (pyIndex env.mhdvars var).map (fun idx =>
      { idx, filenameBase := env.root_name ++ "_mf_common",
        snap_not_aux := true, mf_arr_size := 1, jdx := 0 })
  else if var ∈ env.snapvars ∧ 0 < env.mf_ispecies then
    (pyIndex env.snapvars var).map (fun idx =>
      { idx, filenameBase := env.root_name ++ "_mf_" ++ iS ++ "_" ++ iL,
        snap_not_aux := true, mf_arr_size := 1, jdx := 0 })
  else if var ∈ env.snapevars ∧ 0 < env.mf_ispecies then
    (pyIndex env.snapevars var).map (fun idx =>
      { idx, filenameBase := env.root_name ++ "_mfe_" ++ iS ++ "_" ++ iL,
        snap_not_aux := true, mf_arr_size := 1, jdx := 0 })
  else if var ∈ env.snapevars ∧ env.mf_ispecies < 0 then
    (pyIndex env.snapevars var).map (fun idx =>
      { idx, filenameBase := env.root_name ++ "_mf_e",
        snap_not_aux := true, mf_arr_size := 1, jdx := 0 })
  else if var ∈ env.auxvars then
    (pyIndex env.auxvars var).map (fun idx =>
      { idx, filenameBase := env.root_name,
        snap_not_aux := false, mf_arr_size := 1, jdx := 0 })
  else if var ∈ env.varsmf then
    (pyIndex env.varsmf var).map (fun idx =>
      { idx, filenameBase := env.root_name ++ "_mf_" ++ iS ++ "_" ++ iL,
        snap_not_aux := false, mf_arr_size := 1, jdx := 0 })
  else if var ∈ env.varsmfr then
    -- self.mfr_file is only set by _init_vars when a dot io folder exists
    .error .attributeError
  else if var ∈ env.varsmfp then
    .error .attributeError
  else if var ∈ env.varsmfe then
    (pyIndex env.varsmfe var).map (fun idx =>
      { idx, filenameBase := env.root_name ++ "_mfe_" ++ iS ++ "_" ++ iL,
        snap_not_aux := false, mf_arr_size := 1, jdx := 0 })
  else if var ∈ env.varsmfc then
    (pyIndex env.varsmfc var).map (fun idx =>
      { idx, filenameBase := env.root_name ++ "_mfc_" ++ iS ++ "_" ++ iL,
        snap_not_aux := false, mf_arr_size := 1, jdx := 0 })
  else if var ∈ env.varsmm then
    (pyIndex env.varsmm var).map (fun idx =>
      { idx, filenameBase := env.root_name ++ "_mm_" ++ iS ++ "_" ++ iL,
        snap_not_aux := false, mf_arr_size := env.mf_total_nlevel,
        jdx := jdx_count env.mf_nspecies env.nlevel env.mf_jspecies env.mf_jlevel })
  else
    .error .valueError

/-- The kwargs computed for numpy.memmap: byte offset and shape. -/
structure MemmapKwargs where
  offset : Nat
  shape : List Nat
deriving DecidableEq, Repr

/-- EbysusData._get_simple_var_file_info: pick the current snap and its
string, classify the variable to a file group and ordinal, build the file
name, and compute the memmap offset and shape. In the source, the panic
branch assigns a local _suffix_panic and then evaluates the undefined
name _fsuffix_panic, which raises NameError; the embedding reproduces
that. In both classification branches the source sets
_reading_ebysuslike_snap to True, so the dot io directory is always
prepended. -/
def _get_simple_var_file_info (env : FileEnv) (var : String) (panicFlag : Bool) :
    Except PyError (String × MemmapKwargs) := do
  let currSnap := env.snap.current
  let currStr := if currSnap > 0 then env.snap_str_cur else ""
  let reading_scr := currSnap < 0
  let c ← if env.io_exists then classify_io env var else classify_nonio env var
  let snapdir := env.file_root ++ ".io"
  let filename := snapdir ++ "/" ++ c.filenameBase
  let filename ← if panicFlag then
      -- the source line is: filename = filename + _fsuffix_panic
      -- where only _suffix_panic was assigned, so Python raises NameError
      (.error .nameError : Except PyError String)
    else
      .ok (filename ++ currStr ++ (if c.snap_not_aux then ".snap" else ".aux")
            ++ (if reading_scr then ".scr" else ""))
  let offset := env.nx * env.ny * env.nzb * c.idx * env.dsize * c.mf_arr_size
  let kw : MemmapKwargs :=
    if c.mf_arr_size = 1 then
      { offset, shape := [env.nx, env.ny, env.nzb] }
    else if var ∈ env.varsmm then
      { offset := offset + env.nx * env.ny * env.nzb * c.jdx * env.dsize,
        shape := [env.nx, env.ny, env.nzb] }
    else
      { offset, shape := [env.nx, env.ny, env.nzb, c.mf_arr_size] }
  return (filename, kw)

/-- Is an Except value a success. -/
def exceptIsOk {ε β : Type} : Except ε β → Bool
  | .ok _ => true
  | .error _ => false

/-- The level pairs of one species, in level order: (s, 1) .. (s, m). -/
def levelPairsFor (s : Int) (m : Nat) : List (Int × Int) :=
  (List.range m).map (fun (l0 : Nat) => (s, (l0 : Int) + 1))

/-- All (species, level) pairs in species-major order: species 1..n, and
for each species its levels 1..nlevel(species). -/
def speciesLevelPairs : Nat → (Nat → Nat) → List (Int × Int)
  | 0, _ => []
  | n + 1, nlevel =>
    speciesLevelPairs n nlevel ++ levelPairsFor ((n : Int) + 1) (nlevel (n + 1))

/-- The predicate "pair p strictly precedes the pair (jS, jL) in
species-major order". -/
def pairPrecedes (jS jL : Int) (p : Int × Int) : Bool :=
  decide (p.1 < jS ∨ (p.1 = jS ∧ p.2 < jL))

/-- Stated from the spec's words: the number of (species, level) pairs
strictly preceding (jS, jL) in species-major order over species
1..mf_nspecies with levels 1..nlevel(species). -/
def pairsPrecedingCount (mf_nspecies : Nat) (nlevel : Nat → Nat) (jS jL : Int) : Nat :=
  ((speciesLevelPairs mf_nspecies nlevel).filter (pairPrecedes jS jL)).length

/- ===================== _init_vars_get (ebysus.py) ===================== -/

/-- The state mutated by EbysusData._init_vars_get: the self.variables
store (with its metadata entry), the bounded _hidden_errors list with its
_hidden_errors_max_len attribute (none while the attribute is not yet
set; the source sets it to 100 on first use), and the warnings issued for
errors which are neither fatal nor hidden. -/
structure InitVarsState (α : Type) where
  variables_entries : List (String × α)
  variables_metadata : Option Metadata
  hidden_errors : List (String × PyError)
  hidden_errors_max_len : Option Nat
  warnings_issued : List String
deriving DecidableEq, Repr

/-- The SILENTLY HIDE THE ERROR branch of _init_vars_get: ensure
_hidden_errors and _hidden_errors_max_len exist (max length 100), append
the error, and when the list length exceeds the maximum delete its
element 0 (the oldest). -/
def hidden_record {α : Type} (st : InitVarsState α) (varname : String)
    (err : PyError) : InitVarsState α :=
  let maxLen := st.hidden_errors_max_len.getD 100
  let errs := st.hidden_errors ++ [(varname, err)]
  let errs := if errs.length > maxLen then errs.drop 1 else errs
  { st with hidden_errors := errs, hidden_errors_max_len := some maxLen }

/-- EbysusData._init_vars_get: for each var of varlist, try reading it
via _get_simple_var (the readVar parameter; reading does not change the
fluid selectors, so the sign condition on mf_ispecies and mf_ilevel is
the fixed flag negFluid). On error: if the var is r and this is the first
initialization, re-raise; else if the error is a ValueError and
mf_ispecies is negative or mf_ilevel is negative, hide the error and
continue; else warn and continue. On success, store the value in
self.variables and refresh the metadata entry from the live metadata. -/
def _init_vars_get {α : Type} (readVar : String → Except PyError α)
    (firstime : Bool) (negFluid : Bool) (liveMetadata : Metadata) :
    List String → InitVarsState α → Except PyError (InitVarsState α)
  | [], st => .ok st
  | var :: rest, st =>
    match readVar var with
    | .ok v =>
      _init_vars_get readVar firstime negFluid liveMetadata rest
        { st with variables_entries := dictInsert st.variables_entries var v,
                  variables_metadata := some liveMetadata }
    | .error e =>
      if var = "r" ∧ firstime then .error e
      else if e = PyError.valueError ∧ negFluid then
        _init_vars_get readVar firstime negFluid liveMetadata rest
          (hidden_record st var e)
      else
        _init_vars_get readVar firstime negFluid liveMetadata rest
          { st with warnings_issued := st.warnings_issued ++ [var] }


/- ===================== concrete fixtures for witnesses ===================== -/

/-- A TYPE_QUANT dict fixture with one documented variable. -/
def tdW : TypeQuantDict := { quantdoc := "tq", entries := [("v", "docv")] }

/-- A META_QUANT dict fixture holding tdW under the name T. -/
def mdW : MetaQuantDict := { quantdoc := "mq", typequants := [("T", tdW)] }

/-- A documentation state fixture with METAQUANT set to M and mdW
registered. -/
def docStW : DocState := { metaquant := some "M", vardict := [("M", mdW)] }

/-- An EbysusData state fixture with an empty variables store and empty
cache. -/
def ddNat0 : DD Nat :=
  { ifluid := ⟨1, 1⟩, jfluid := ⟨1, 1⟩, snap := .scalar 0, iix := .all,
    iiy := .all, iiz := .all, match_type := 0, panicFlag := false,
    mm_persnap := true, memory_memmap := some ["m1", "m2"],
    variables_entries := [], variables_metadata := none, cache_entries := [],
    do_caching := true, creating_vardict := false, axis_x := 7, axis_y := 8,
    axis_z := 9, helpCalled := false }

/-- A metadata fixture that matches the live metadata of ddNat1 (its
ifluid agrees, its jfluid is absent, and all non-fluid fields agree). -/
def mdMatchW : Metadata :=
  { ifluid := some ⟨1, 1⟩, jfluid := none, snap := 0, snaps := none,
    iix := .all, iiy := .all, iiz := .all, match_type := 0, panicFlag := false }

/-- An EbysusData state fixture whose variables store holds r with a
matching metadata entry. -/
def ddNat1 : DD Nat :=
  { ddNat0 with
    jfluid := ⟨2, 3⟩,
    variables_entries := [("r", 11)],
    variables_metadata := some mdMatchW }

/-- Producer stages that are absent for every name. -/
def stagesNone : Stages Nat :=
  { load_fromfile := fun _ _ _ => none, load_quantities := fun _ _ => none,
    load_mf := fun _ _ => none, load_arith := fun _ _ => none }

/-- Producer stages whose fromfile stage produces 42 for the empty name
and is absent otherwise. -/
def stagesEmpty42 : Stages Nat :=
  { stagesNone with load_fromfile := fun _ v _ => if v = "" then some 42 else none }

/-- Producer stages that all produce a value for every name, to witness
the priority order. -/
def stagesAll : Stages Nat :=
  { load_fromfile := fun _ _ _ => some 5, load_quantities := fun _ _ => some 6,
    load_mf := fun _ _ => some 7, load_arith := fun _ _ => some 8 }

/-- A file-layout fixture: ebysus-like layout (a dot io folder exists),
two species with two levels each, one two-fluid packed aux variable
mm_cross, jfluid (2, 1), a 4 by 4 by 4 grid of 4-byte elements, snap 3. -/
def envW : FileEnv :=
  { root_name := "snap", file_root := "snap", io_exists := true,
    mhdvars := ["bx", "by", "bz"], snapvars := [], snaprvars := ["r"],
    snappvars := ["px", "py", "pz"], snapevars := ["e"], auxvars := [],
    varsmf := [], varsmfr := [], varsmfp := [], varsmfe := [], varsmfc := [],
    varsmm := ["mm_cross"], mf_ispecies := 1, mf_ilevel := 1,
    mf_jspecies := 2, mf_jlevel := 1, mf_nspecies := 2, nlevel := fun _ => 2,
    mf_total_nlevel := 4, nx := 4, ny := 4, nzb := 4, dsize := 4,
    snap := .scalar 3, snap_str_cur := "_003" }

/-- A reader fixture for _init_vars_get: every read raises ValueError. -/
def readW : String → Except PyError Nat :=
  fun _ => .error .valueError

/-- An _init_vars_get state fixture whose hidden-error list is full (100
entries). -/
def initW : InitVarsState Nat :=
  { variables_entries := [], variables_metadata := none,
    hidden_errors := List.replicate 100 ("w", PyError.valueError),
    hidden_errors_max_len := some 100, warnings_issued := [] }


/- ===================== helper lemmas ===================== -/

theorem get_var_setup_preserves {α : Type} (dd : DD α) (a : GetVarArgs) :
    (get_var_setup dd a).variables_entries = dd.variables_entries
    ∧ (get_var_setup dd a).cache_entries = dd.cache_entries
    ∧ (get_var_setup dd a).do_caching = dd.do_caching := by
  unfold get_var_setup set_fluids set_snap bifrost_set_snap set_snap_invalidate
    set_domain_iiaxes
  rcases a.matchTypeArg with _ | m <;> rcases a.snap with _ | s <;>
    simp <;> split <;> simp <;> split <;> simp

theorem load_quantity_none {α : Type} (d : DD α) (stages : Stages α)
    (var : String) (pf : Bool)
    (h1 : stages.load_fromfile d var pf = none)
    (h2 : stages.load_quantities d var = none)
    (h3 : stages.load_mf d var = none)
    (h4 : stages.load_arith d var = none)
    (hstore : alookup d.variables_entries var = none) :
    _load_quantity d stages var pf = none := by
  simp [_load_quantity, _load_quantity_stage_chain, hstore, h1, h2, h3, h4]

theorem load_quantity_cached_fst_none {α : Type} (d : DD α) (stages : Stages α)
    (var : String) (pf cc cf : Bool) (cwn : Option Nat)
    (hcache : ∀ md, alookup d.cache_entries (var, md) = none)
    (hlq : _load_quantity d stages var pf = none) :
    (load_quantity_cached d stages var pf cc cf cwn).1 = none := by
  unfold load_quantity_cached
  have hget : (if d.do_caching && cc then
      alookup d.cache_entries (cache_key d var cwn) else none) = none := by
    split
    · exact hcache _
    · rfl
  simp only [hget, hlq]

/- ===================== claim theorems ===================== -/

/-- Claim C10: vars_documenter is idempotent per quantity type: if
TYPE_QUANT is already present in obj.vardict at METAQUANT and rewrite is
False, the returned function is a no-op and the state is unchanged, so a
second registration of the same TYPE_QUANT leaves every existing
documentation entry unchanged; and calling vars_documenter while
METAQUANT is unset raises ValueError without modifying obj.vardict. -/
theorem c10_vars_documenter_idempotent :
    (∀ st TQ QV QD rw, st.metaquant = none →
        vars_documenter st TQ QV QD rw = .error .valueError)
    ∧ (∀ st TQ QV QD m md, st.metaquant = some m →
        alookup st.vardict m = some md →
        (alookup md.typequants TQ).isSome = true →
        vars_documenter st TQ QV QD false = .ok (st, dont_document_var))
    ∧ (∀ st n d, dont_document_var st n d = st) := by
  refine ⟨?_, ?_, ?_⟩
  · intro st TQ QV QD rw h
    simp [vars_documenter, h]
  · intro st TQ QV QD m md hm hmd hTQ
    simp [vars_documenter, hm, hmd, hTQ]
  · intro st n d
    rfl


/-- Witness for C10 at concrete inputs: a state with METAQUANT unset
raises ValueError, and re-registering an existing TYPE_QUANT returns the
state unchanged together with the no-op closure. -/
theorem c10_vars_documenter_idempotent_witness :
    vars_documenter { metaquant := none, vardict := [] } "T" none "d" false
      = .error .valueError
    ∧ vars_documenter docStW "T" none "d" false = .ok (docStW, dont_document_var) := by
  exact ⟨c10_vars_documenter_idempotent.1 _ "T" none "d" false rfl,
         c10_vars_documenter_idempotent.2.1 docStW "T" none "d" "M" mdW rfl rfl rfl⟩

/-- Claim C1: for every variable name (given that the self.variables
store does not supply the value), _load_quantity tries the producer
stages in the fixed priority order fromfile, general, multifluid,
arithmetic; a later stage is consulted only if every earlier stage
returned None (the result does not depend on the stages after the first
producing one, which are universally quantified in each conjunct), and
the value of the first stage returning non-None is returned; if all four
return None, the result is None. -/
theorem c1_stage_priority {α : Type} (dd : DD α) (var : String) (pf : Bool)
    (hmiss : ((alookup dd.variables_entries var).isSome
        && metadata_matches_opt dd.variables_metadata dd.metadata) = false) :
    (∀ f1 f2 f3 f4 v, f1 dd var pf = some v →
        _load_quantity dd ⟨f1, f2, f3, f4⟩ var pf = some v)
    ∧ (∀ f1 f2 f3 f4 v, f1 dd var pf = none → f2 dd var = some v →
        _load_quantity dd ⟨f1, f2, f3, f4⟩ var pf = some v)
    ∧ (∀ f1 f2 f3 f4 v, f1 dd var pf = none → f2 dd var = none →
        f3 dd var = some v →
        _load_quantity dd ⟨f1, f2, f3, f4⟩ var pf = some v)
    ∧ (∀ f1 f2 f3 f4 v, f1 dd var pf = none → f2 dd var = none →
        f3 dd var = none → f4 dd var = some v →
        _load_quantity dd ⟨f1, f2, f3, f4⟩ var pf = some v)
    ∧ (∀ f1 f2 f3 f4, f1 dd var pf = none → f2 dd var = none →
        f3 dd var = none → f4 dd var = none →
        _load_quantity dd ⟨f1, f2, f3, f4⟩ var pf = none) := by
  refine ⟨?_, ?_, ?_, ?_, ?_⟩
  · intro f1 f2 f3 f4 v e1
    simp [_load_quantity, _load_quantity_stage_chain, hmiss, e1]
  · intro f1 f2 f3 f4 v e1 e2
    simp [_load_quantity, _load_quantity_stage_chain, hmiss, e1, e2]
  · intro f1 f2 f3 f4 v e1 e2 e3
    simp [_load_quantity, _load_quantity_stage_chain, hmiss, e1, e2, e3]
  · intro f1 f2 f3 f4 v e1 e2 e3 e4
    simp [_load_quantity, _load_quantity_stage_chain, hmiss, e1, e2, e3, e4]
  · intro f1 f2 f3 f4 e1 e2 e3 e4
    simp [_load_quantity, _load_quantity_stage_chain, hmiss, e1, e2, e3, e4]

/-- Witness for C1 at concrete inputs: with an empty variables store, the
fromfile stage wins even though every later stage also produces a value. -/
theorem c1_stage_priority_witness :
    _load_quantity ddNat0 stagesAll "r" false = some 5 := by
  exact (c1_stage_priority ddNat0 "r" false rfl).1 _ _ _ _ 5 rfl

/-- Claim C3: whenever _load_quantity returns the value stored in
self.variables instead of recomputing, the stored metadata matches the
live metadata: every non-fluid metadata field (snap, snaps, iix, iiy,
iiz, match_type, panic) equals the live value and every fluid present in
the stored metadata equals the corresponding live fluid under fluid
equality; and a stored entry whose metadata does not match (or a store
without a metadata entry) is never returned: resolution falls through to
the producer-stage chain. -/
theorem c3_stored_metadata_matches {α : Type} (dd : DD α) (stages : Stages α)
    (var : String) (pf : Bool) :
    (∀ md v, dd.variables_metadata = some md →
        alookup dd.variables_entries var = some v →
        metadata_matches md dd.metadata = true →
        (_load_quantity dd stages var pf = some v
          ∧ md.snap = dd.metadata.snap ∧ md.snaps = dd.metadata.snaps
          ∧ md.iix = dd.iix ∧ md.iiy = dd.iiy ∧ md.iiz = dd.iiz
          ∧ md.match_type = dd.match_type ∧ md.panicFlag = dd.panicFlag
          ∧ (∀ f, md.ifluid = some f → fluid_equals f dd.ifluid = true)
          ∧ (∀ f, md.jfluid = some f → fluid_equals f dd.jfluid = true)))
    ∧ (∀ md, dd.variables_metadata = some md →
        metadata_matches md dd.metadata = false →
        _load_quantity dd stages var pf
          = _load_quantity_stage_chain dd stages var pf)
    ∧ (dd.variables_metadata = none →
        _load_quantity dd stages var pf
          = _load_quantity_stage_chain dd stages var pf) := by
  refine ⟨?_, ?_, ?_⟩
  · intro md v hmd hv hmatch
    have hcond : ((alookup dd.variables_entries var).isSome
        && metadata_matches_opt dd.variables_metadata dd.metadata) = true := by
      simp [hv, hmd, metadata_matches_opt, hmatch]
    have hres : _load_quantity dd stages var pf = some v := by
      unfold _load_quantity
      rw [hcond]
      simpa using hv
    simp only [metadata_matches, Bool.and_eq_true, dict_equals_ignoring_fluids,
      decide_eq_true_eq] at hmatch
    obtain ⟨⟨hif, hjf⟩, hsnap, hsnaps, hiix, hiiy, hiiz, hmt, hpf⟩ := hmatch
    refine ⟨hres, hsnap, hsnaps, ?_, ?_, ?_, hmt, hpf, ?_, ?_⟩
    · simpa [DD.metadata] using hiix
    · simpa [DD.metadata] using hiiy
    · simpa [DD.metadata] using hiiz
    · intro f hf
      rw [hf] at hif
      simpa [DD.metadata] using hif
    · intro f hf
      rw [hf] at hjf
      simpa [DD.metadata] using hjf
  · intro md hmd hmm
    have hcond : ((alookup dd.variables_entries var).isSome
        && metadata_matches_opt dd.variables_metadata dd.metadata) = false := by
      simp [hmd, metadata_matches_opt, hmm]
    unfold _load_quantity
    rw [hcond]
    simp
  · intro hmd
    have hcond : ((alookup dd.variables_entries var).isSome
        && metadata_matches_opt dd.variables_metadata dd.metadata) = false := by
      simp [hmd, metadata_matches_opt]
    unfold _load_quantity
    rw [hcond]
    simp

/-- Witness for C3 at concrete inputs: a stored entry for r whose
metadata matches the live metadata is returned from the store, with
every producer stage absent. -/
theorem c3_stored_metadata_matches_witness :
    _load_quantity ddNat1 stagesNone "r" false = some 11 := by
  exact ((c3_stored_metadata_matches ddNat1 stagesNone "r" false).1
    mdMatchW 11 rfl rfl (by decide)).1

/-- Claim C7: for every axis coordinate name, get_var returns the
precomputed coordinate array attribute immediately, leaving the state
unchanged (so fluids, snapshot and slices are not applied and neither the
cache nor any producer stage is consulted); the returned value does not
depend on the kwargs of the call or on the stages, which are universally
quantified. -/
theorem c7_axes_bypass {α : Type} (dd : DD α) (stages : Stages α)
    (a : GetVarArgs) (var : String) (hvar : var ∈ AXES) :
    get_var dd stages var a = (.ok (axis_attr dd var), dd) := by
  simp only [AXES, List.mem_cons, List.not_mem_nil, or_false] at hvar
  rcases hvar with rfl | rfl | rfl <;> rfl

/-- Witness for C7 at concrete inputs: get_var of x returns the
precomputed x coordinate attribute and leaves the state unchanged. -/
theorem c7_axes_bypass_witness :
    get_var ddNat0 stagesAll "x" {} = (.ok (axis_attr ddNat0 "x"), ddNat0) := by
  exact c7_axes_bypass ddNat0 stagesAll {} "x" (by decide)

/-- Claim C8: set_snap deletes every remembered memmap if and only if the
per-snapshot deletion policy mm_persnap is enabled (its constructor
default being True) and the currently loaded snap is a single scalar; in
all other cases the memmap pool is untouched; and the invalidation step
changes nothing besides the memmap pool, the rest of set_snap being the
snap-loading call of the parent class. -/
theorem c8_set_snap_invalidation {α : Type} (dd : DD α) (s : SnapVal) :
    (dd.mm_persnap = true → dd.snap.isScalar = true →
        (set_snap dd s).memory_memmap = none)
    ∧ (¬(dd.mm_persnap = true ∧ dd.snap.isScalar = true) →
        (set_snap dd s).memory_memmap = dd.memory_memmap)
    ∧ set_snap_invalidate dd
        = { dd with memory_memmap := (set_snap_invalidate dd).memory_memmap }
    ∧ set_snap dd s = { set_snap_invalidate dd with snap := s }
    ∧ mm_persnap_default = true := by
  refine ⟨?_, ?_, ?_, ?_, rfl⟩
  · intro h1 h2
    simp [set_snap, bifrost_set_snap, set_snap_invalidate, h1, h2]
  · intro h
    have hcond : (dd.mm_persnap && dd.snap.isScalar) = false := by
      cases hb : dd.mm_persnap <;> cases hs : dd.snap.isScalar <;> simp_all
    simp [set_snap, bifrost_set_snap, set_snap_invalidate, hcond]
  · unfold set_snap_invalidate
    split
    · rfl
    · rfl
  · rfl

/-- Witness for C8 at concrete inputs: with the policy enabled and a
scalar snap loaded, set_snap drops the remembered memmaps. -/
theorem c8_set_snap_invalidation_witness :
    (set_snap ddNat0 (.scalar 5)).memory_memmap = none := by
  exact (c8_set_snap_invalidation ddNat0 (.scalar 5)).1 rfl rfl

/-- Claim C6 fails on the code (the source get_var has no return
statement after the help call): a request for the empty variable name,
outside vardict creation, shows help but then FALLS THROUGH into the
normal pipeline — the empty name is resolved as a variable. Here, with a
fromfile producer stage yielding 42 for the empty name and an otherwise
empty store and cache, get_var of the empty name returns that
stage-produced value (so producer stages ARE invoked after the
documentation facility, instead of short-circuiting before the cache
check). -/
theorem c6_empty_name_not_short_circuited :
    (get_var ddNat0 stagesEmpty42 "" {}).1 = .ok 42
    ∧ (get_var ddNat0 stagesEmpty42 "" {}).2.helpCalled = true := by
  exact ⟨rfl, rfl⟩

/-- Claim C2: for every variable name (outside the axis names, with no
stored entry and no cache entry for that name) for which all four
producer stages return absent in every context, get_var fails with the
UnknownVariable error rather than returning a normal result. -/
theorem c2_unknown_variable {α : Type} (dd : DD α) (stages : Stages α)
    (a : GetVarArgs) (var : String)
    (hax : var ∉ AXES)
    (h1 : ∀ d pb, stages.load_fromfile d var pb = none)
    (h2 : ∀ d, stages.load_quantities d var = none)
    (h3 : ∀ d, stages.load_mf d var = none)
    (h4 : ∀ d, stages.load_arith d var = none)
    (hstore : alookup dd.variables_entries var = none)
    (hcache : ∀ md, alookup dd.cache_entries (var, md) = none) :
    (get_var dd stages var a).1 = .error .unknownVariable := by
  unfold get_var
  set dd0 : DD α := if var = "" && !dd.creating_vardict
      then { dd with helpCalled := true } else dd with hdd0
  have hdd0e : dd0.variables_entries = dd.variables_entries ∧
      dd0.cache_entries = dd.cache_entries := by
    rw [hdd0]
    split <;> exact ⟨rfl, rfl⟩
  rw [if_neg hax]
  have hpres := get_var_setup_preserves dd0 a
  have hstore1 : alookup (get_var_setup dd0 a).variables_entries var = none := by
    rw [hpres.1, hdd0e.1]
    exact hstore
  have hcache1 : ∀ md, alookup (get_var_setup dd0 a).cache_entries (var, md) = none := by
    intro md
    rw [hpres.2.1, hdd0e.2]
    exact hcache md
  have hlq : _load_quantity (get_var_setup dd0 a) stages var a.panicArg = none :=
    load_quantity_none _ _ _ _ (h1 _ _) (h2 _) (h3 _) (h4 _) hstore1
  have hval : (load_quantity_cached (get_var_setup dd0 a) stages var a.panicArg
      a.check_cache a.cacheArg a.cache_with_nfluid).1 = none :=
    load_quantity_cached_fst_none _ _ _ _ _ _ _ hcache1 hlq
  simp only [hval, get_var_postprocess]

/-- Witness for C2 at concrete inputs: with empty store and cache and
all stages absent, get_var of an unknown name fails with
UnknownVariable. -/
theorem c2_unknown_variable_witness :
    (get_var ddNat0 stagesNone "notavar" {}).1 = .error .unknownVariable := by
  exact c2_unknown_variable ddNat0 stagesNone {} "notavar" (by decide)
    (fun _ _ => rfl) (fun _ => rfl) (fun _ => rfl) (fun _ => rfl) rfl (fun _ => rfl)

/-- Helper for C9: hidden_record keeps the maximum length at its value. -/
theorem hidden_record_maxlen {α : Type} (st : InitVarsState α) (v : String)
    (e : PyError) :
    (hidden_record st v e).hidden_errors_max_len
      = some (st.hidden_errors_max_len.getD 100) := rfl

/-- Helper for C9: with the maximum length at its default 100,
hidden_record preserves the bound of 100 on the hidden-error list. -/
theorem hidden_record_len_le {α : Type} (st : InitVarsState α) (v : String)
    (e : PyError) (hmax : st.hidden_errors_max_len.getD 100 = 100)
    (hlen : st.hidden_errors.length ≤ 100) :
    (hidden_record st v e).hidden_errors.length ≤ 100 := by
  simp only [hidden_record, hmax]
  split
  · simp only [List.length_drop, List.length_append, List.length_cons,
      List.length_nil]
    omega
  · rename_i hle
    simp only [gt_iff_lt, not_lt, List.length_append, List.length_cons,
      List.length_nil] at hle
    simp only [List.length_append, List.length_cons, List.length_nil]
    omega

/-- Helper for C9: with the maximum length at its default 100 and the
hidden-error list full, hidden_record drops the oldest entry (element 0)
and appends the new one. -/
theorem hidden_record_drop_oldest {α : Type} (st : InitVarsState α) (v : String)
    (e : PyError) (hmax : st.hidden_errors_max_len.getD 100 = 100)
    (hlen : st.hidden_errors.length = 100) :
    (hidden_record st v e).hidden_errors
      = st.hidden_errors.drop 1 ++ [(v, e)] := by
  simp only [hidden_record, hmax]
  split
  · exact List.drop_append_of_le_length (by omega)
  · rename_i hle
    simp only [gt_iff_lt, not_lt, List.length_append, List.length_cons,
      List.length_nil] at hle
    omega

/-- Claim C9: during _init_vars_get, a failure to read r on first
initialization propagates (aborting construction); a ValueError for any
other variable while mf_ispecies or mf_ilevel is negative does not
propagate: it is appended to the bounded _hidden_errors list and the loop
continues with the next variable; the list length never exceeds 100 (the
default maximum), with the oldest entry (element 0) dropped first when
the cap is exceeded. -/
theorem c9_init_vars_error_policy {α : Type} :
    (∀ (readVar : String → Except PyError α) negFluid md l st e,
        "r" ∈ l → readVar "r" = .error e →
        _init_vars_get readVar true negFluid md l st = .error e)
    ∧ (∀ (readVar : String → Except PyError α) firstime md var rest st,
        var ≠ "r" → readVar var = .error .valueError →
        _init_vars_get readVar firstime true md (var :: rest) st
          = _init_vars_get readVar firstime true md rest
              (hidden_record st var .valueError))
    ∧ (∀ (st : InitVarsState α) v e, st.hidden_errors_max_len.getD 100 = 100 →
        st.hidden_errors.length ≤ 100 →
        (hidden_record st v e).hidden_errors.length ≤ 100)
    ∧ (∀ (st : InitVarsState α) v e, st.hidden_errors_max_len.getD 100 = 100 →
        st.hidden_errors.length = 100 →
        (hidden_record st v e).hidden_errors
          = st.hidden_errors.drop 1 ++ [(v, e)])
    ∧ (∀ (readVar : String → Except PyError α) firstime negFluid md l st st',
        st.hidden_errors_max_len.getD 100 = 100 →
        st.hidden_errors.length ≤ 100 →
        _init_vars_get readVar firstime negFluid md l st = .ok st' →
        st'.hidden_errors.length ≤ 100) := by
  refine ⟨?_, ?_, ?_, ?_, ?_⟩
  · intro readVar negFluid md l
    induction l with
    | nil => intro st e h; simp at h
    | cons x rest ih =>
      intro st e hmem herr
      by_cases hx : x = "r"
      · subst hx
        rw [_init_vars_get, herr]
        simp
      · have hmem' : "r" ∈ rest := by
          rcases List.mem_cons.mp hmem with h | h
          · exact absurd h.symm hx
          · exact h
        rw [_init_vars_get]
        cases hrv : readVar x with
        | ok v => exact ih _ e hmem' herr
        | error e' =>
          dsimp only
          rw [if_neg (by simp [hx])]
          split
          · exact ih _ e hmem' herr
          · exact ih _ e hmem' herr
  · intro readVar firstime md var rest st hvar herr
    rw [_init_vars_get, herr]
    dsimp only
    rw [if_neg (by simp [hvar]), if_pos (by simp)]
  · exact fun st v e => hidden_record_len_le st v e
  · exact fun st v e => hidden_record_drop_oldest st v e
  · intro readVar firstime negFluid md l
    induction l with
    | nil =>
      intro st st' hmax hlen hok
      rw [_init_vars_get] at hok
      cases hok
      exact hlen
    | cons x rest ih =>
      intro st st' hmax hlen hok
      rw [_init_vars_get] at hok
      cases hrv : readVar x with
      | ok v =>
        rw [hrv] at hok
        dsimp only at hok
        refine ih _ _ ?_ ?_ hok
        · exact hmax
        · exact hlen
      | error e =>
        rw [hrv] at hok
        dsimp only at hok
        split at hok
        · cases hok
        · split at hok
          · refine ih _ _ ?_ ?_ hok
            · rw [hidden_record_maxlen, hmax]
              rfl
            · exact hidden_record_len_le st x e hmax hlen
          · refine ih _ _ ?_ ?_ hok
            · exact hmax
            · exact hlen

/-- Witness for C9 at concrete inputs: a ValueError reading r during
first initialization propagates; for a non-r variable with a negative
fluid selector the error is hidden and, with the hidden-error list
already full at 100 entries, the oldest entry is dropped; the resulting
list again has 100 entries. -/
theorem c9_init_vars_error_policy_witness :
    _init_vars_get readW true false mdMatchW ["r"] initW = .error .valueError
    ∧ _init_vars_get readW false true mdMatchW ["r2"] initW
        = .ok (hidden_record initW "r2" .valueError)
    ∧ (hidden_record initW "r2" PyError.valueError).hidden_errors
        = initW.hidden_errors.drop 1 ++ [("r2", .valueError)]
    ∧ (hidden_record initW "r2" PyError.valueError).hidden_errors.length ≤ 100 := by
  refine ⟨?_, ?_, ?_, ?_⟩
  · exact c9_init_vars_error_policy.1 readW false mdMatchW ["r"] initW
      .valueError (by decide) rfl
  · rw [c9_init_vars_error_policy.2.1 readW false mdMatchW "r2" [] initW
      (by decide) rfl]
    rfl
  · exact c9_init_vars_error_policy.2.2.2.1 initW "r2" .valueError rfl
      (by simp [initW])
  · exact c9_init_vars_error_policy.2.2.1 initW "r2" .valueError rfl
      (by simp [initW])

/-- Claim C4 fails on the code: for every variable recognized as a simple
variable (the classification cascade succeeds), requesting the panic
variant does NOT return a filename descriptor: the source line
filename = filename + _fsuffix_panic evaluates the undefined name
_fsuffix_panic (only _suffix_panic was assigned on the previous line), so
_get_simple_var_file_info raises NameError instead of appending the
panic suffix. -/
theorem c4_panic_raises_name_error (env : FileEnv) (var : String)
    (hok : exceptIsOk
        (if env.io_exists then classify_io env var else classify_nonio env var)
      = true) :
    _get_simple_var_file_info env var true = .error .nameError := by
  unfold _get_simple_var_file_info
  cases hio : env.io_exists
  · cases hc : classify_nonio env var with
    | error e =>
      rw [hio, hc] at hok
      simp [exceptIsOk] at hok
    | ok c =>
      simp [hc, bind, Except.bind]
  · cases hc : classify_io env var with
    | error e =>
      rw [hio, hc] at hok
      simp [exceptIsOk] at hok
    | ok c =>
      simp [hc, bind, Except.bind]

/-- Witness for C4 at concrete inputs: the snap-group variable r of the
envW fixture is classified successfully, and requesting its panic
variant raises NameError. -/
theorem c4_panic_raises_name_error_witness :
    _get_simple_var_file_info envW "r" true = .error .nameError := by
  exact c4_panic_raises_name_error envW "r" rfl


/-- Helper for C5: Python list.index succeeds on a member. -/
theorem pyIndex_mem (l : List String) (x : String) (h : x ∈ l) :
    ∃ i, pyIndex l x = .ok i := by
  induction l with
  | nil => simp at h
  | cons y ys ih =>
    by_cases hxy : y = x
    · exact ⟨0, by simp [pyIndex, hxy]⟩
    · have hmem : x ∈ ys := by
        rcases List.mem_cons.mp h with h' | h'
        · exact absurd h'.symm hxy
        · exact h'
      obtain ⟨i, hi⟩ := ih hmem
      exact ⟨i + 1, by simp [pyIndex, hxy, hi, Except.map]⟩

/-- Helper for C5: a list with a member failing the predicate has
strictly fewer matches than elements. -/
theorem countP_lt_length_of_mem_not {β : Type} (l : List β) (p : β → Bool) (x : β)
    (hx : x ∈ l) (hpx : p x = false) : l.countP p < l.length := by
  induction l with
  | nil => simp at hx
  | cons y ys ih =>
    rcases List.mem_cons.mp hx with rfl | hmem
    · have hle : List.countP p ys ≤ ys.length := List.countP_le_length p
      rw [List.countP_cons]
      simp [hpx]
      omega
    · have hlt := ih hmem
      rw [List.countP_cons]
      by_cases hy : p y = true <;> simp [hy] <;> omega

/-- Helper for C5: every species in the pair enumeration is at least 1. -/
theorem speciesLevelPairs_mem_pos (N : Nat) (nlevel : Nat → Nat) (p : Int × Int)
    (hp : p ∈ speciesLevelPairs N nlevel) : 1 ≤ p.1 := by
  induction N with
  | zero => simp [speciesLevelPairs] at hp
  | succ N ih =>
    rw [speciesLevelPairs] at hp
    rcases List.mem_append.mp hp with h | h
    · exact ih h
    · simp only [levelPairsFor, List.mem_map, List.mem_range] at h
      obtain ⟨l0, _, rfl⟩ := h
      simp only []
      omega

/-- Helper for C5: a valid (species, level) selector occurs in the pair
enumeration. -/
theorem valid_mem_speciesLevelPairs (N : Nat) (nlevel : Nat → Nat) (s0 : Nat)
    (jL : Int) (hs : s0 < N) (h1 : 1 ≤ jL) (h2 : jL ≤ (nlevel (s0 + 1) : Int)) :
    ((s0 : Int) + 1, jL) ∈ speciesLevelPairs N nlevel := by
  induction N with
  | zero => omega
  | succ N ih =>
    rw [speciesLevelPairs]
    rcases Nat.lt_succ_iff_lt_or_eq.mp hs with h | h
    · exact List.mem_append_left _ (ih h)
    · subst h
      refine List.mem_append_right _ ?_
      simp only [levelPairsFor, List.mem_map, List.mem_range]
      refine ⟨(jL - 1).toNat, ?_, ?_⟩
      · omega
      · rw [Prod.mk.injEq]
        constructor
        · rfl
        · omega

/-- Helper for C5: the inner level loop of jdx_count counts, from its
accumulator, the preceding pairs among the levels of one species. -/
theorem jdx_inner_eq (jS jL : Int) (s0 : Nat) (m : Nat) (n : Nat) :
    (List.range m).foldl (fun (jdx : Nat) (l0 : Nat) =>
      let iS : Int := (s0 : Int) + 1
      let iL : Int := (l0 : Int) + 1
      if iS < jS then jdx + 1
      else if iS = jS ∧ iL < jL then jdx + 1
      else jdx) n
    = n + (levelPairsFor ((s0 : Int) + 1) m).countP (pairPrecedes jS jL) := by
  induction m with
  | zero => simp [levelPairsFor]
  | succ m ih =>
    rw [List.range_succ, List.foldl_append, ih]
    simp only [List.foldl_cons, List.foldl_nil]
    have hpairs : levelPairsFor ((s0 : Int) + 1) (m + 1)
        = levelPairsFor ((s0 : Int) + 1) m ++ [((s0 : Int) + 1, (m : Int) + 1)] := by
      simp [levelPairsFor, List.range_succ]
    rw [hpairs, List.countP_append]
    by_cases h1 : ((s0 : Int) + 1) < jS
    · have hp : pairPrecedes jS jL ((s0 : Int) + 1, (m : Int) + 1) = true := by
        simp only [pairPrecedes, decide_eq_true_eq]
        left
        omega
      have hcount : (List.countP (pairPrecedes jS jL)
          [((s0 : Int) + 1, (m : Int) + 1)]) = 1 := by
        simp [List.countP_cons, hp]
      rw [hcount, if_pos h1]
      omega
    · by_cases h2 : ((s0 : Int) + 1) = jS ∧ ((m : Int) + 1) < jL
      · have hp : pairPrecedes jS jL ((s0 : Int) + 1, (m : Int) + 1) = true := by
          simp only [pairPrecedes, decide_eq_true_eq]
          right
          omega
        have hcount : (List.countP (pairPrecedes jS jL)
            [((s0 : Int) + 1, (m : Int) + 1)]) = 1 := by
          simp [List.countP_cons, hp]
        rw [hcount, if_neg h1, if_pos h2]
        omega
      · have hp : pairPrecedes jS jL ((s0 : Int) + 1, (m : Int) + 1) = false := by
          simp only [pairPrecedes, decide_eq_false_iff_not]
          intro hcon
          rcases hcon with hcon | hcon
          · omega
          · exact h2 (by omega)
        have hcount : (List.countP (pairPrecedes jS jL)
            [((s0 : Int) + 1, (m : Int) + 1)]) = 0 := by
          simp [List.countP_cons, hp]
        rw [hcount, if_neg h1, if_neg h2]
        omega

/-- Helper for C5: the nested jdx loop equals the count of preceding
pairs in the species-major enumeration. -/
theorem jdx_count_eq (N : Nat) (nlevel : Nat → Nat) (jS jL : Int) :
    jdx_count N nlevel jS jL
      = (speciesLevelPairs N nlevel).countP (pairPrecedes jS jL) := by
  induction N with
  | zero => rfl
  | succ N ih =>
    unfold jdx_count at ih ⊢
    rw [List.range_succ, List.foldl_append]
    simp only [List.foldl_cons, List.foldl_nil]
    rw [jdx_inner_eq, ih]
    rw [speciesLevelPairs, List.countP_append]

theorem file_info_mm_offset (env : FileEnv) (var : String) (c : SimpleVarClass)
    (hmm : var ∈ env.varsmm)
    (hcls : (if env.io_exists then classify_io env var
        else classify_nonio env var) = .ok c)
    (harr : c.mf_arr_size = env.mf_total_nlevel)
    (hjdx0 : env.mf_total_nlevel = 1 → c.jdx = 0) :
    ∃ fn kw, _get_simple_var_file_info env var false = .ok (fn, kw)
      ∧ kw.offset = env.dsize * env.nx * env.ny * env.nzb *
          (c.idx * env.mf_total_nlevel + c.jdx) := by
  unfold _get_simple_var_file_info
  cases hio : env.io_exists
  · rw [hio] at hcls
    simp only [Bool.false_eq_true, if_false] at hcls
    simp only [Bool.false_eq_true, if_false, hcls, bind, Except.bind, pure,
      Except.pure]
    refine ⟨_, _, rfl, ?_⟩
    by_cases hT : env.mf_total_nlevel = 1
    · have hone : c.mf_arr_size = 1 := by rw [harr, hT]
      rw [if_pos hone]
      simp only [hone, hT, hjdx0 hT]
      ring
    · have hone : ¬(c.mf_arr_size = 1) := by rw [harr]; exact hT
      rw [if_neg hone, if_pos hmm]
      simp only [harr]
      ring
  · rw [hio] at hcls
    simp only [if_true] at hcls
    simp only [if_true, hcls, bind, Except.bind, pure, Except.pure]
    refine ⟨_, _, rfl, ?_⟩
    by_cases hT : env.mf_total_nlevel = 1
    · have hone : c.mf_arr_size = 1 := by rw [harr, hT]
      rw [if_pos hone]
      simp only [hone, hT, hjdx0 hT]
      ring
    · have hone : ¬(c.mf_arr_size = 1) := by rw [harr]; exact hT
      rw [if_neg hone, if_pos hmm]
      simp only [harr]
      ring

/-- Helper for C5: with the earlier classification branches excluded, the
io-layout cascade classifies a varsmm variable to the mm file group with
mf_arr_size equal to mf_total_nlevel and the jdx offset count. -/
theorem classify_io_varsmm (env : FileEnv) (var : String) (idx : Nat)
    (hmm : var ∈ env.varsmm) (h1 : var ∉ env.mhdvars)
    (h2 : var ∉ ["bx", "by", "bz"]) (h3 : var ∉ env.snaprvars)
    (h4 : var ∉ env.snappvars) (h5 : var ∉ env.snapevars)
    (h6 : var ∉ env.auxvars) (h7 : var ∉ env.varsmf) (h8 : var ∉ env.varsmfr)
    (h9 : var ∉ env.varsmfp) (h10 : var ∉ env.varsmfe) (h11 : var ∉ env.varsmfc)
    (hidx : pyIndex env.varsmm var = .ok idx) :
    classify_io env var = .ok
      { idx := idx,
        filenameBase := "mf_" ++ zfill2 env.mf_ispecies ++ "_"
          ++ zfill2 env.mf_ilevel ++ "/mm/" ++ env.root_name ++ "_mm_"
          ++ zfill2 env.mf_ispecies ++ "_" ++ zfill2 env.mf_ilevel,
        snap_not_aux := false, mf_arr_size := env.mf_total_nlevel,
        jdx := jdx_count env.mf_nspecies env.nlevel env.mf_jspecies
          env.mf_jlevel } := by
  simp only [classify_io]
  rw [if_neg (by simp [h1, h2]), if_neg (by simp [h3]), if_neg (by simp [h4]),
    if_neg (by simp [h5]), if_neg (by simp [h5]), if_neg (by simp [h6]),
    if_neg (by simp [h7]), if_neg (by simp [h8]), if_neg (by simp [h9]),
    if_neg (by simp [h10]), if_neg (by simp [h11]), if_pos hmm, hidx]
  rfl

/-- Helper for C5: the bifrost-layout cascade classifies a varsmm
variable the same way (with its own file name). -/
theorem classify_nonio_varsmm (env : FileEnv) (var : String) (idx : Nat)
    (hmm : var ∈ env.varsmm) (h1 : var ∉ env.mhdvars)
    (h2 : var ∉ ["bx", "by", "bz"]) (h3 : var ∉ env.snapvars)
    (h4 : var ∉ env.snapevars) (h5 : var ∉ env.auxvars) (h6 : var ∉ env.varsmf)
    (h7 : var ∉ env.varsmfr) (h8 : var ∉ env.varsmfp) (h9 : var ∉ env.varsmfe)
    (h10 : var ∉ env.varsmfc)
    (hidx : pyIndex env.varsmm var = .ok idx) :
    classify_nonio env var = .ok
      { idx := idx,
        filenameBase := env.root_name ++ "_mm_" ++ zfill2 env.mf_ispecies
          ++ "_" ++ zfill2 env.mf_ilevel,
        snap_not_aux := false, mf_arr_size := env.mf_total_nlevel,
        jdx := jdx_count env.mf_nspecies env.nlevel env.mf_jspecies
          env.mf_jlevel } := by
  simp only [classify_nonio]
  rw [if_neg (by simp [h1, h2]), if_neg (by simp [h3]), if_neg (by simp [h4]),
    if_neg (by simp [h4]), if_neg (by simp [h5]), if_neg (by simp [h6]),
    if_neg (by simp [h7]), if_neg (by simp [h8]), if_neg (by simp [h9]),
    if_neg (by simp [h10]), if_pos hmm, hidx]
  rfl

/-- Helper for C5: in a layout whose pair enumeration has exactly one
pair, a valid or electron jfluid selector has no preceding pairs. -/
theorem jdx_count_zero_of_one (N : Nat) (nlevel : Nat → Nat) (jS jL : Int)
    (hT : (speciesLevelPairs N nlevel).length = 1)
    (hj : jS ≤ 0 ∨ ∃ s0 : Nat, jS = (s0 : Int) + 1 ∧ s0 < N ∧ 1 ≤ jL ∧
      jL ≤ (nlevel (s0 + 1) : Int)) :
    jdx_count N nlevel jS jL = 0 := by
  rw [jdx_count_eq]
  rcases hj with hj | ⟨s0, rfl, hs, hL1, hL2⟩
  · rw [List.countP_eq_zero]
    intro p hp
    have hpos := speciesLevelPairs_mem_pos N nlevel p hp
    simp only [pairPrecedes, decide_eq_true_eq]
    intro hcon
    rcases hcon with hcon | hcon
    · omega
    · omega
  · have hpmem := valid_mem_speciesLevelPairs N nlevel s0 jL hs hL1 hL2
    have hnp : pairPrecedes ((s0 : Int) + 1) jL ((s0 : Int) + 1, jL) = false := by
      simp only [pairPrecedes, decide_eq_false_iff_not]
      intro hcon
      rcases hcon with hcon | hcon
      · omega
      · omega
    have hlt := countP_lt_length_of_mem_not _ _ _ hpmem hnp
    omega

/-- Claim C5: for every two-fluid packed variable (a name in varsmm, not
belonging to any earlier file group), the jdx computed by the nested loop
equals the number of (species, level) pairs strictly preceding
(mf_jspecies, mf_jlevel) in species-major order over species
1..mf_nspecies with levels 1..nlevel(species), and the byte offset passed
to the memmap equals
dsize * nx * ny * nzb * (idx * mf_total_nlevel + jdx), i.e. the group
base offset plus the selected pair's ordinal times the per-level byte
size. (mf_total_nlevel is the total level count of the atom table, as
established at construction; the jfluid selector is a valid fluid or an
electron selector.) -/
theorem c5_varsmm_offset (env : FileEnv) (var : String)
    (hmm : var ∈ env.varsmm) (h1 : var ∉ env.mhdvars)
    (h2 : var ∉ ["bx", "by", "bz"]) (h3 : var ∉ env.snaprvars)
    (h4 : var ∉ env.snappvars) (h5 : var ∉ env.snapevars)
    (h6 : var ∉ env.snapvars) (h7 : var ∉ env.auxvars) (h8 : var ∉ env.varsmf)
    (h9 : var ∉ env.varsmfr) (h10 : var ∉ env.varsmfp) (h11 : var ∉ env.varsmfe)
    (h12 : var ∉ env.varsmfc)
    (hT : env.mf_total_nlevel
      = (speciesLevelPairs env.mf_nspecies env.nlevel).length)
    (hj : env.mf_jspecies ≤ 0 ∨ ∃ s0 : Nat,
      env.mf_jspecies = (s0 : Int) + 1 ∧ s0 < env.mf_nspecies ∧
      1 ≤ env.mf_jlevel ∧ env.mf_jlevel ≤ (env.nlevel (s0 + 1) : Int)) :
    jdx_count env.mf_nspecies env.nlevel env.mf_jspecies env.mf_jlevel
      = pairsPrecedingCount env.mf_nspecies env.nlevel env.mf_jspecies
          env.mf_jlevel
    ∧ ∃ idx fn kw,
        pyIndex env.varsmm var = .ok idx
        ∧ _get_simple_var_file_info env var false = .ok (fn, kw)
        ∧ kw.offset = env.dsize * env.nx * env.ny * env.nzb *
            (idx * env.mf_total_nlevel +
              pairsPrecedingCount env.mf_nspecies env.nlevel env.mf_jspecies
                env.mf_jlevel) := by
  have hjdxc : jdx_count env.mf_nspecies env.nlevel env.mf_jspecies env.mf_jlevel
      = pairsPrecedingCount env.mf_nspecies env.nlevel env.mf_jspecies
          env.mf_jlevel := by
    rw [jdx_count_eq, pairsPrecedingCount, List.countP_eq_length_filter]
  refine ⟨hjdxc, ?_⟩
  obtain ⟨idx, hidx⟩ := pyIndex_mem env.varsmm var hmm
  have hjdx0 : env.mf_total_nlevel = 1 →
      jdx_count env.mf_nspecies env.nlevel env.mf_jspecies env.mf_jlevel = 0 := by
    intro hone
    exact jdx_count_zero_of_one env.mf_nspecies env.nlevel env.mf_jspecies
      env.mf_jlevel (by omega) hj
  have hcls : ∃ c : SimpleVarClass,
      (if env.io_exists then classify_io env var else classify_nonio env var)
        = .ok c
      ∧ c.idx = idx ∧ c.mf_arr_size = env.mf_total_nlevel
      ∧ c.jdx = jdx_count env.mf_nspecies env.nlevel env.mf_jspecies
          env.mf_jlevel := by
    cases hio : env.io_exists
    · refine ⟨{
          idx := idx,
          filenameBase := env.root_name ++ "_mm_" ++ zfill2 env.mf_ispecies
            ++ "_" ++ zfill2 env.mf_ilevel,
          snap_not_aux := false,
          mf_arr_size := env.mf_total_nlevel,
          jdx := jdx_count env.mf_nspecies env.nlevel env.mf_jspecies
            env.mf_jlevel }, ?_, rfl, rfl, rfl⟩
      simp only [Bool.false_eq_true, if_false]
      exact classify_nonio_varsmm env var idx hmm h1 h2 h6 h5 h7 h8 h9 h10
        h11 h12 hidx
    · refine ⟨{
          idx := idx,
          filenameBase := "mf_" ++ zfill2 env.mf_ispecies ++ "_"
            ++ zfill2 env.mf_ilevel ++ "/mm/" ++ env.root_name ++ "_mm_"
            ++ zfill2 env.mf_ispecies ++ "_" ++ zfill2 env.mf_ilevel,
          snap_not_aux := false,
          mf_arr_size := env.mf_total_nlevel,
          jdx := jdx_count env.mf_nspecies env.nlevel env.mf_jspecies
            env.mf_jlevel }, ?_, rfl, rfl, rfl⟩
      simp only [if_true]
      exact classify_io_varsmm env var idx hmm h1 h2 h3 h4 h5 h7 h8 h9 h10
        h11 h12 hidx
  obtain ⟨c, hc, hcidx, hcarr, hcjdx⟩ := hcls
  obtain ⟨fn, kw, hfk, hoff⟩ := file_info_mm_offset env var c hmm hc hcarr
    (fun hone => by rw [hcjdx]; exact hjdx0 hone)
  refine ⟨idx, fn, kw, hidx, hfk, ?_⟩
  rw [hoff, hcidx, hcjdx, hjdxc]

/-- Witness for C5 at concrete inputs: in the envW fixture (two species
with two levels each, jfluid (2, 1)), the mm_cross offset equals the
packed-file formula. -/
theorem c5_varsmm_offset_witness :
    jdx_count envW.mf_nspecies envW.nlevel envW.mf_jspecies envW.mf_jlevel
      = pairsPrecedingCount envW.mf_nspecies envW.nlevel envW.mf_jspecies
          envW.mf_jlevel
    ∧ ∃ idx fn kw,
        pyIndex envW.varsmm "mm_cross" = .ok idx
        ∧ _get_simple_var_file_info envW "mm_cross" false = .ok (fn, kw)
        ∧ kw.offset = envW.dsize * envW.nx * envW.ny * envW.nzb *
            (idx * envW.mf_total_nlevel +
              pairsPrecedingCount envW.mf_nspecies envW.nlevel envW.mf_jspecies
                envW.mf_jlevel) := by
  exact c5_varsmm_offset envW "mm_cross" (by decide) (by decide) (by decide)
    (by decide) (by decide) (by decide) (by decide) (by decide) (by decide)
    (by decide) (by decide) (by decide) (by decide) (by decide)
    (Or.inr ⟨1, by decide⟩)
